import Mathlib

/-!
Verification of the Tauri application bootstrapper in
`apps/momentum/src-tauri/src/lib.rs`.

The file shallowly embeds the Rust source: the `greet` command, the
`prevent_default` plugin constructor (with the flag set of the
prevent-default crate modelled as a bitmask, as the bitflags crate does),
and the `run` bootstrap sequence (plugin chain, setup callback, event
loop) with the compile-time configuration axes `debug_assertions` and
`desktop` made explicit Booleans.
-/

namespace Momentum

/-- Left brace character, written numerically. -/
def lbrace : Char := Char.ofNat 123

/-- Right brace character, written numerically. -/
def rbrace : Char := Char.ofNat 125

/-- Rust `format!` restricted to a single positional argument: every
empty-brace placeholder in the template is replaced by `arg`, all other
characters are copied byte for byte. -/
def formatOne : List Char → String → String
  | [], _ => ""
  | [c], _ => String.singleton c
  | c :: c2 :: rest, arg =>
    if c = lbrace ∧ c2 = rbrace then arg ++ formatOne rest arg
    else String.singleton c ++ formatOne (c2 :: rest) arg

/-- The template literal of the `greet` command, with the placeholder
braces written numerically. -/
def greetTemplate : List Char :=
  "Hello, \x7b\x7d! You\x27ve been greeted from Rust!".data

/-- The `greet` Tauri command: `format!("Hello, \x7b\x7d! ...", name)`. -/
def greet (name : String) : String :=
  formatOne greetTemplate name

/-- Closed form of `greet`: the fixed prefix, the name, the fixed suffix. -/
theorem greet_eq (name : String) :
    greet name = "Hello, " ++ name ++ "! You\x27ve been greeted from Rust!" := by
  cases name with
  | mk data => rfl

/-- Modelled from the spec: the flags of the external prevent-default
plugin crate, a bitflags set of suppressible default browser behaviors
(the spec names reload and view-source as examples; the source uses
DEV_TOOLS, RELOAD and CONTEXT_MENU). -/
inductive Flag
  | contextMenu
  | devTools
  | downloads
  | findInPage
  | printDialog
  | reload
  | viewSource
deriving DecidableEq, Fintype

/-- Bit index of each flag in the bitflags representation. -/
def Flag.bit : Flag → Nat
  | .contextMenu => 0
  | .devTools => 1
  | .downloads => 2
  | .findInPage => 3
  | .printDialog => 4
  | .reload => 5
  | .viewSource => 6

/-- A flag set is a bitmask, as in the Rust bitflags crate. -/
abbrev Flags := Nat

/-- The singleton flag set of one flag. -/
def Flags.flag (f : Flag) : Flags := 2 ^ f.bit

/-- Modelled from the spec: `Flags::all()` of the external crate, the
union of every defined flag bit. -/
def Flags.all : Flags :=
  [Flag.contextMenu, Flag.devTools, Flag.downloads, Flag.findInPage,
   Flag.printDialog, Flag.reload, Flag.viewSource].foldl
    (fun acc f => acc ||| Flags.flag f) 0

/-- Modelled from the spec: bitflags `difference`, the bits of `a` with
the bits of `b` cleared (complement taken inside the defined mask). -/
def Flags.difference (a b : Flags) : Flags :=
  a &&& (Flags.all ^^^ (b &&& Flags.all))

/-- Membership of a flag in a flag set, by testing its bit. -/
def Flags.has (s : Flags) (f : Flag) : Bool := s.testBit f.bit

/-- The flag set passed to the prevent-default builder, selected by the
`debug_assertions` configuration flag exactly as the two `cfg` variants
of `prevent_default` do. -/
def preventDefaultFlags (debug : Bool) : Flags :=
  if debug then
    Flags.difference Flags.all
      (Flags.flag Flag.devTools ||| Flags.flag Flag.reload |||
        Flags.flag Flag.contextMenu)
  else
    Flags.difference Flags.all (Flags.flag Flag.contextMenu)

/-- A plugin attached to the Tauri builder; the prevent-default plugin
carries the flag set it was built with. -/
inductive Plugin
  | devtools
  | preventDefault (flags : Flags)
  | opener
  | store
  | deepLink
  | http
  | process
  | osInfo
  | updater
deriving DecidableEq

/-- The `prevent_default` function: builds the prevent-default plugin
with the profile-selected flag set. -/
def prevent_default (debug : Bool) : Plugin :=
  Plugin.preventDefault (preventDefaultFlags debug)

/-- The plugin kind, forgetting the configured flag set. -/
def Plugin.kind : Plugin → Plugin
  | .preventDefault _ => .preventDefault 0
  | p => p

/-- The ordered plugin chain attached to the builder in `run` before
`setup`: the devtools plugin under `cfg(debug_assertions)`, then the
seven unconditional `.plugin(...)` calls in source order. -/
def builderPlugins (debug : Bool) : List Plugin :=
  (if debug then [Plugin.devtools] else []) ++
  [prevent_default debug, Plugin.opener, Plugin.store, Plugin.deepLink,
   Plugin.http, Plugin.process, Plugin.osInfo]

/-- The invoke handler registered by `generate_handler![greet]`: command
names with their Rust functions. -/
def commandHandlers : List (String × (String → String)) :=
  [("greet", greet)]

/-- The running application state visible to the setup callback: which
webview window labels exist, and the outcome the framework reports when
the updater plugin is registered on the app handle. -/
structure App where
  windowLabels : List String
  updaterRegistration : Except String Unit

/-- `app.get_webview_window(label)`: the window with that label, when one
exists. -/
def get_webview_window (app : App) (label : String) : Option String :=
  if label ∈ app.windowLabels then some label else none

/-- The observable actions the setup callback performs. -/
inductive SetupAction
  | openDevtools
  | registerUpdater
deriving DecidableEq

/-- The setup callback of `run`: under `cfg(debug_assertions)` it looks
up the webview window labelled main and opens its devtools when found;
under `cfg(desktop)` it registers the updater plugin on the app handle,
propagating a registration failure with `?`. Returns the actions taken
together with the callback result. -/
def setup (debug desktop : Bool) (app : App) :
    List SetupAction × Except String Unit :=
  let devActs : List SetupAction :=
    if debug then
      match get_webview_window app "main" with
      | some _ => [SetupAction.openDevtools]
      | none => []
    else []
  if desktop then
    (devActs ++ [SetupAction.registerUpdater], app.updaterRegistration)
  else (devActs, Except.ok ())

/-- Every plugin registration `run` attempts: the builder chain followed
by the registrations attempted inside the setup callback. -/
def attemptedPlugins (debug desktop : Bool) (app : App) : List Plugin :=
  builderPlugins debug ++
    (setup debug desktop app).1.filterMap fun a =>
      match a with
      | SetupAction.registerUpdater => some Plugin.updater
      | _ => none

/-- The environment `run` executes in: the application state, the result
of `generate_context!`, and the result of the framework event loop when
it is reached. -/
structure RunEnv where
  app : App
  context : Except String Unit
  eventLoop : Except String Unit

/-- The framework `.run(ctx)` call: context generation, then the setup
callback, then the event loop; the first failure short-circuits. -/
def tauriRun (debug desktop : Bool) (env : RunEnv) : Except String Unit := do
  env.context
  (setup debug desktop env.app).2
  env.eventLoop

/-- How the process ends. -/
inductive RunResult
  | normalExit
  | terminated (msg : String)
deriving DecidableEq

/-- The panic message passed to `.expect` in `run`. -/
def expectMsg : String := "error while running tauri application"

/-- The `run` entry point: runs the framework and, on any error,
terminates the process via `.expect`, which panics with the descriptive
message and the error. -/
def run (debug desktop : Bool) (env : RunEnv) : RunResult :=
  match tauriRun debug desktop env with
  | Except.ok _ => RunResult.normalExit
  | Except.error e => RunResult.terminated (expectMsg ++ ": " ++ e)

/-- Strings append by concatenating their character data. -/
theorem data_append (s t : String) : (s ++ t).data = s.data ++ t.data := by
  cases s
  cases t
  rfl

/-- C1: for every input string name, including the empty string and
strings with whitespace or control characters, greet returns exactly the
greeting with the name interpolated byte for byte, with no escaping or
sanitization. -/
theorem greet_exact (name : String) :
    greet name = "Hello, " ++ name ++ "! You\x27ve been greeted from Rust!" ∧
    (greet name).data =
      "Hello, ".data ++ name.data ++
        "! You\x27ve been greeted from Rust!".data := by
  refine ⟨greet_eq name, ?_⟩
  rw [greet_eq]
  cases name
  rfl

/-- C10: greet is injective, so the input name is fully recoverable from
the greeting. -/
theorem greet_injective : Function.Injective greet := by
  intro a b h
  rw [greet_eq, greet_eq] at h
  have hd := congrArg String.data h
  simp only [data_append] at hd
  exact String.ext (List.append_cancel_left (List.append_cancel_right hd))

/-- C2: the prevent-default flag set depends only on the build profile:
in a debug build all flags except DEV_TOOLS, RELOAD and CONTEXT_MENU, in
a release build all flags except CONTEXT_MENU. -/
theorem preventDefault_flag_set :
    (∀ f : Flag, (Flags.has (preventDefaultFlags true) f = true ↔
      f ≠ Flag.devTools ∧ f ≠ Flag.reload ∧ f ≠ Flag.contextMenu)) ∧
    (∀ f : Flag, (Flags.has (preventDefaultFlags false) f = true ↔
      f ≠ Flag.contextMenu)) := by
  decide

/-- C3: the debug plugin chain contains the devtools plugin and the
permissive prevent-default filter; the release chain contains neither,
and its only prevent-default filter is the strict one. -/
theorem debug_release_plugin_presence :
    (Plugin.devtools ∈ builderPlugins true ∧
      prevent_default true ∈ builderPlugins true) ∧
    (Plugin.devtools ∉ builderPlugins false ∧
      prevent_default true ∉ builderPlugins false ∧
      (builderPlugins false).filter
        (fun p => p.kind == Plugin.preventDefault 0) =
        [prevent_default false]) := by
  decide

/-- C9: run attaches one fixed ordered plugin list: devtools first when
present, then prevent-default, opener, store, deep-link, http, process,
os-info; the shared plugins appear in the same relative order in both
profiles. -/
theorem plugin_order_fixed :
    (builderPlugins true).map Plugin.kind =
      Plugin.devtools :: (builderPlugins false).map Plugin.kind ∧
    (builderPlugins false).map Plugin.kind =
      [Plugin.preventDefault 0, Plugin.opener, Plugin.store,
       Plugin.deepLink, Plugin.http, Plugin.process, Plugin.osInfo] := by
  decide

/-- C4: the setup callback attempts to register the updater plugin
exactly when the build targets a desktop platform. -/
theorem updater_attempt_iff_desktop (debug desktop : Bool) (app : App) :
    SetupAction.registerUpdater ∈ (setup debug desktop app).1 ↔
      desktop = true := by
  unfold setup
  cases desktop <;> cases debug <;> simp
  cases get_webview_window app "main" <;> simp

/-- C5: on a desktop build, a failing updater registration propagates
out of the setup callback, and when context generation succeeded the
whole run terminates with the panic message. -/
theorem updater_failure_aborts (debug : Bool) (app : App) (e : String)
    (h : app.updaterRegistration = Except.error e) :
    (setup debug true app).2 = Except.error e ∧
    ∀ env : RunEnv, env.app = app → env.context = Except.ok () →
      run debug true env = RunResult.terminated (expectMsg ++ ": " ++ e) := by
  have hsetup : (setup debug true app).2 = Except.error e := by
    simp [setup, h]
  refine ⟨hsetup, ?_⟩
  intro env happ hctx
  unfold run tauriRun
  rw [happ]
  simp only [hctx, hsetup]
  rfl

/-- An application whose updater registration fails. -/
def appUpdFail : App :=
  { windowLabels := [], updaterRegistration := Except.error "boom" }

/-- A run environment around `appUpdFail` with a good context and a good
event loop. -/
def envUpdFail : RunEnv :=
  { app := appUpdFail, context := Except.ok (), eventLoop := Except.ok () }

/-- Witness for C5 at a concrete failing registration. -/
theorem updater_failure_aborts_witness :
    (setup false true appUpdFail).2 = Except.error "boom" ∧
    run false true envUpdFail =
      RunResult.terminated (expectMsg ++ ": " ++ "boom") := by
  have h := updater_failure_aborts false appUpdFail "boom" rfl
  exact ⟨h.1, h.2 envUpdFail rfl rfl⟩

/-- C6: in a debug build, setup opens the devtools of the window
labelled main exactly when the lookup succeeds; when the lookup returns
none, nothing is opened and setup continues without raising an error. -/
theorem devtools_lookup_silent (desktop : Bool) (app : App) :
    (SetupAction.openDevtools ∈ (setup true desktop app).1 ↔
      (get_webview_window app "main").isSome = true) ∧
    (get_webview_window app "main" = none →
      SetupAction.openDevtools ∉ (setup true desktop app).1 ∧
      (app.updaterRegistration = Except.ok () →
        (setup true desktop app).2 = Except.ok ())) := by
  cases desktop <;>
    cases hw : get_webview_window app "main" <;>
      simp [setup, hw]

/-- An application with no windows and a succeeding updater
registration. -/
def appNoWin : App :=
  { windowLabels := [], updaterRegistration := Except.ok () }

/-- Witness for C6 at a concrete application with no main window. -/
theorem devtools_lookup_silent_witness :
    (SetupAction.openDevtools ∈ (setup true true appNoWin).1 ↔
      (get_webview_window appNoWin "main").isSome = true) ∧
    SetupAction.openDevtools ∉ (setup true true appNoWin).1 ∧
    (setup true true appNoWin).2 = Except.ok () := by
  have h := devtools_lookup_silent true appNoWin
  have h2 := h.2 rfl
  exact ⟨h.1, h2.1, h2.2 rfl⟩

/-- C7: a context generation failure or an event loop failure makes run
terminate the process with the descriptive panic message, and every
outcome of run is either a normal exit or such a termination: no error
is caught, retried or downgraded. -/
theorem fatal_startup_error_path (debug desktop : Bool) (env : RunEnv) :
    (∀ e, env.context = Except.error e →
      run debug desktop env =
        RunResult.terminated (expectMsg ++ ": " ++ e)) ∧
    (∀ e, env.context = Except.ok () →
      (setup debug desktop env.app).2 = Except.ok () →
      env.eventLoop = Except.error e →
      run debug desktop env =
        RunResult.terminated (expectMsg ++ ": " ++ e)) ∧
    (run debug desktop env = RunResult.normalExit ∨
      ∃ e, tauriRun debug desktop env = Except.error e ∧
        run debug desktop env =
          RunResult.terminated (expectMsg ++ ": " ++ e)) := by
  refine ⟨?_, ?_, ?_⟩
  · intro e hctx
    unfold run tauriRun
    simp only [hctx]
    rfl
  · intro e hctx hsetup hloop
    unfold run tauriRun
    simp only [hctx, hsetup, hloop]
    rfl
  · unfold run
    cases h : tauriRun debug desktop env with
    | ok u => exact Or.inl rfl
    | error e => exact Or.inr ⟨e, rfl, rfl⟩

/-- A run environment whose context generation fails. -/
def envCtxFail : RunEnv :=
  { app := appNoWin, context := Except.error "ctx", eventLoop := Except.ok () }

/-- Witness for C7 at a concrete failing context. -/
theorem fatal_startup_error_path_witness :
    run false true envCtxFail =
      RunResult.terminated (expectMsg ++ ": " ++ "ctx") :=
  (fatal_startup_error_path false true envCtxFail).1 "ctx" rfl

/-- C8: in the release desktop configuration, run attempts exactly the
plugin set strict prevent-default, opener, store, deep-link, http,
process, os-info, updater, and registers exactly the one command
greet. -/
theorem release_desktop_surface (app : App) :
    (∀ p : Plugin, p ∈ attemptedPlugins false true app ↔
      p ∈ [prevent_default false, Plugin.opener, Plugin.store,
           Plugin.deepLink, Plugin.http, Plugin.process, Plugin.osInfo,
           Plugin.updater]) ∧
    commandHandlers.map Prod.fst = ["greet"] :=
  ⟨fun _ => Iff.rfl, rfl⟩

end Momentum
